import Mathlib

/-!
Shallow embedding of the Distributed Coordination Layer of `it-wo-data-core`
(src/distributed/*.mjs plus the unnamed heartbeat / leader-election /
lock-service / time-sync sources).  JavaScript `Map`s are modelled as
association lists with JS `Map` semantics (`set` replaces in place, keys are
unique), machine numbers as `Nat`/`Int`, and each stateful operation as an
explicit state-passing function translated from the source.
-/

namespace IWDC

/-! ## JavaScript Map model -/

/-- JS `Map.get`: first binding for the key, if any. -/
def mapGet {α : Type} (m : List (String × α)) (k : String) : Option α :=
  match m with
  | [] => none
  | (k1, v) :: rest => if k1 = k then some v else mapGet rest k

/-- JS `Map.set`: replace the binding in place if the key exists, else append. -/
def mapSet {α : Type} (m : List (String × α)) (k : String) (v : α) : List (String × α) :=
  match m with
  | [] => [(k, v)]
  | (k1, v1) :: rest => if k1 = k then (k, v) :: rest else (k1, v1) :: mapSet rest k v

/-- JS `Map.delete`: drop the binding for the key. -/
def mapDelete {α : Type} (m : List (String × α)) (k : String) : List (String × α) :=
  m.filter (fun kv => kv.1 ≠ k)

theorem mapGet_mapSet_self {α : Type} (m : List (String × α)) (k : String) (v : α) :
    mapGet (mapSet m k v) k = some v := by
  induction m with
  | nil => simp [mapGet, mapSet]
  | cons hd tl ih =>
    by_cases h : hd.1 = k
    · simp [mapGet, mapSet, h]
    · simp [mapGet, mapSet, h, ih]

theorem mapGet_mapDelete_self {α : Type} (m : List (String × α)) (k : String) :
    mapGet (mapDelete m k) k = none := by
  induction m with
  | nil => simp [mapGet, mapDelete]
  | cons hd tl ih =>
    by_cases h : hd.1 = k
    · simpa [mapDelete, h] using ih
    · simpa [mapDelete, mapGet, h] using ih

/-! ## Coordinator State (src/distributed/coordinator-state.mjs) -/

/-- One cluster participant as stored in `coordinatorState.participants`. -/
structure Participant where
  id : String
  lastHeartbeat : Nat
  status : String
  uptime : Nat
deriving DecidableEq, Repr

/-- The nullable `coordinatorState.leader` record. -/
structure LeaderInfo where
  id : String
  electedAt : Nat
  lastHeartbeat : Nat
deriving DecidableEq, Repr

/-- The optional `info` argument of `updateParticipant` (`{ status, uptime }`,
plus `lastHeartbeat` which `receiveHeartbeat` passes through the spread). -/
structure ParticipantInfo where
  status : Option String
  uptime : Option Nat
  lastHeartbeat : Option Nat
deriving DecidableEq, Repr

/-- The process-wide `coordinatorState` object. -/
structure CoordState where
  leader : Option LeaderInfo
  participants : List (String × Participant)
  lastUpdate : Option Nat
deriving DecidableEq, Repr

/-- `updateParticipant(participantId, info)`: `set` the participant record with
`lastHeartbeat: Date.now()`, `status: info.status || 'healthy'`,
`uptime: info.uptime || 0`, overridden by the `...info` spread. -/
def updateParticipant (st : CoordState) (participantId : String)
    (info : ParticipantInfo) (now : Nat) : CoordState :=
  { st with
    participants := mapSet st.participants participantId
      { id := participantId
        lastHeartbeat := info.lastHeartbeat.getD now
        status := info.status.getD "healthy"
        uptime := info.uptime.getD 0 }
    lastUpdate := some now }

/-- `removeParticipant(participantId)`. -/
def removeParticipant (st : CoordState) (participantId : String) (now : Nat) : CoordState :=
  { st with participants := mapDelete st.participants participantId, lastUpdate := some now }

/-- `getParticipants()`: the values of the participants map. -/
def getParticipants (st : CoordState) : List Participant :=
  st.participants.map Prod.snd

/-- `getHealthyParticipantsCount()`: participants whose status is
`'healthy'` or `'degraded'`. -/
def getHealthyParticipantsCount (st : CoordState) : Nat :=
  (getParticipants st).countP (fun p => p.status = "healthy" ∨ p.status = "degraded")

/-- `setLeader(leaderId, electedAt = Date.now())`. -/
def setLeader (st : CoordState) (leaderId : String) (electedAt now : Nat) : CoordState :=
  { st with
    leader := some { id := leaderId, electedAt := electedAt, lastHeartbeat := now }
    lastUpdate := some now }

/-- `updateLeaderHeartbeat()`. -/
def updateLeaderHeartbeat (st : CoordState) (now : Nat) : CoordState :=
  match st.leader with
  | none => st
  | some l =>
    { st with leader := some { l with lastHeartbeat := now }, lastUpdate := some now }

/-- `isLeader(checkInstanceId)`: false when there is no leader, else compares ids. -/
def isLeader (st : CoordState) (checkInstanceId : String) : Bool :=
  match st.leader with
  | none => false
  | some l => l.id = checkInstanceId

/-! ## Quorum (src/distributed/sync-engine.mjs, checkQuorum) -/

/-- The object returned by `checkQuorum` / `getQuorumInfo`. -/
structure QuorumInfo where
  total : Nat
  healthy : Nat
  required : Nat
  sufficient : Bool
deriving DecidableEq, Repr

/-- `checkQuorum()`: `total = participants.length + 1`,
`healthy = getHealthyParticipantsCount() + 1`, `required = Math.ceil(total / 2)`
(on naturals, `(total + 1) / 2`), `sufficient = healthy >= required`. -/
def checkQuorum (st : CoordState) : QuorumInfo :=
  let participants := getParticipants st
  let total := participants.length + 1
  let healthy := getHealthyParticipantsCount st + 1
  let required := (total + 1) / 2
  { total := total
    healthy := healthy
    required := required
    sufficient := decide (required ≤ healthy) }

/-- `getQuorumInfo()` just returns `checkQuorum()`. -/
def getQuorumInfo (st : CoordState) : QuorumInfo :=
  checkQuorum st

/-- C1: for every coordinator state with N participants, the quorum reported by
checkQuorum (exposed via getQuorumInfo) has total = N + 1, healthy = (number of
participants with status healthy or degraded) + 1, required equal to
ceil((N+1)/2) — characterised without division as the unique r with
total ≤ 2r ≤ total + 1 — and sufficient true exactly when healthy ≥ required. -/
theorem C1_checkQuorum_formula (st : CoordState) :
    (getQuorumInfo st).total = (getParticipants st).length + 1 ∧
    (getQuorumInfo st).healthy =
      ((getParticipants st).countP
        (fun p => p.status = "healthy" ∨ p.status = "degraded")) + 1 ∧
    (getQuorumInfo st).total ≤ 2 * (getQuorumInfo st).required ∧
    2 * (getQuorumInfo st).required ≤ (getQuorumInfo st).total + 1 ∧
    ((getQuorumInfo st).sufficient = true ↔
      (getQuorumInfo st).required ≤ (getQuorumInfo st).healthy) := by
  refine ⟨rfl, rfl, ?_, ?_, ?_⟩
  · simp only [getQuorumInfo, checkQuorum]
    omega
  · simp only [getQuorumInfo, checkQuorum]
    omega
  · simp [getQuorumInfo, checkQuorum]

/-! ## Sync Engine proposals and voting (src/distributed/sync-engine.mjs) -/

/-- One vote record: `{ vote, timestamp }`. -/
structure VoteRecord where
  vote : String
  timestamp : Nat
deriving DecidableEq, Repr

/-- An active proposal `{ id, type, data, proposer, timestamp, votes }`; the
snapshot/diff payload is opaque here and modelled as a string token. -/
structure Proposal where
  id : String
  type : String
  data : String
  proposer : String
  timestamp : Nat
  votes : List (String × VoteRecord)
deriving DecidableEq, Repr

/-- Sync engine state: the `activeProposals` map plus the (type, data) pairs
for which the apply step (`applySnapshot` / `applyDiff`) has been triggered,
in order. -/
structure SyncState where
  activeProposals : List (String × Proposal)
  applied : List (String × String)
deriving DecidableEq, Repr

/-- The object returned by `collectVote`: either
`{ success: false, reason: 'proposal_not_found' }` or
`{ success: true, proposalId, vote, quorumReached, votesCount }`. -/
structure CollectVoteResult where
  success : Bool
  reason : Option String
  proposalId : Option String
  vote : Option String
  quorumReached : Option Bool
  votesCount : Option Nat
deriving DecidableEq, Repr

/-- The `{ success: false, reason: 'proposal_not_found' }` result. -/
def proposalNotFound : CollectVoteResult :=
  { success := false
    reason := some "proposal_not_found"
    proposalId := none
    vote := none
    quorumReached := none
    votesCount := none }

/-- The accept-vote count of `checkQuorumForProposal`: iterate the vote map
values and count `vote === 'accept'`. -/
def acceptVotes (votes : List (String × VoteRecord)) : Nat :=
  votes.countP (fun kv => kv.2.vote = "accept")

/-- `checkQuorumForProposal(proposal)`: recompute
`required = Math.ceil((participants.length + 1) / 2)` from the current
coordinator state and test `acceptVotes >= required`. -/
def checkQuorumForProposal (coord : CoordState) (proposal : Proposal) : Bool :=
  let total := (getParticipants coord).length + 1
  let required := (total + 1) / 2
  decide (required ≤ acceptVotes proposal.votes)

/-- `collectVote(proposalId, voterId, vote)`: record the vote in the
proposal's vote map; if quorum is now reached, trigger the apply step for the
proposal's kind and delete the proposal from `activeProposals`. -/
def collectVote (coord : CoordState) (st : SyncState)
    (proposalId voterId vote : String) (now : Nat) : CollectVoteResult × SyncState :=
  match mapGet st.activeProposals proposalId with
  | none => (proposalNotFound, st)
  | some proposal =>
    let votes2 := mapSet proposal.votes voterId { vote := vote, timestamp := now }
    let proposal2 := { proposal with votes := votes2 }
    let quorumReached := checkQuorumForProposal coord proposal2
    let st2 :=
      if quorumReached then
        { activeProposals := mapDelete (mapSet st.activeProposals proposalId proposal2) proposalId
          applied := st.applied ++ [(proposal.type, proposal.data)] }
      else
        { st with activeProposals := mapSet st.activeProposals proposalId proposal2 }
    ({ success := true
       reason := none
       proposalId := some proposalId
       vote := some vote
       quorumReached := some quorumReached
       votesCount := some votes2.length }, st2)

/-- C2: a collectVote call that brings the accept-vote count of an active
proposal to at least the required threshold (re-evaluated from the current
participant set) triggers the apply step for that proposal's kind exactly once
and removes the proposal from the active set; every subsequent collectVote
call with the same proposalId returns success:false with reason
proposal_not_found and leaves the state unchanged. -/
theorem C2_quorum_apply_once (coord : CoordState) (st : SyncState)
    (pid voter vote : String) (now : Nat) (p : Proposal)
    (hp : mapGet st.activeProposals pid = some p)
    (hq : checkQuorumForProposal coord
      { p with votes := mapSet p.votes voter { vote := vote, timestamp := now } } = true) :
    ((collectVote coord st pid voter vote now).1.success = true ∧
      (collectVote coord st pid voter vote now).1.quorumReached = some true) ∧
    (collectVote coord st pid voter vote now).2.applied = st.applied ++ [(p.type, p.data)] ∧
    mapGet (collectVote coord st pid voter vote now).2.activeProposals pid = none ∧
    (∀ (coord2 : CoordState) (voter2 vote2 : String) (now2 : Nat),
      collectVote coord2 (collectVote coord st pid voter vote now).2 pid voter2 vote2 now2 =
        (proposalNotFound, (collectVote coord st pid voter vote now).2)) := by
  have hgone :
      mapGet (collectVote coord st pid voter vote now).2.activeProposals pid = none := by
    simp only [collectVote, hp, hq]
    simp [mapGet_mapDelete_self]
  refine ⟨⟨?_, ?_⟩, ?_, hgone, ?_⟩
  · simp [collectVote, hp]
  · simp [collectVote, hp, hq]
  · simp [collectVote, hp, hq]
  · intro coord2 voter2 vote2 now2
    generalize hst2 : (collectVote coord st pid voter vote now).2 = st2 at hgone
    simp [collectVote, hgone]

/-- C2 witness: with no participants the required threshold is 1, so a single
accept vote on an active proposal applies it once, removes it, and a repeated
vote for the same id is a proposal_not_found no-op. -/
theorem C2_quorum_apply_once_witness :
    (mapGet ([(("p1" : String),
        { id := "p1", type := "snapshot", data := "v1", proposer := "A",
          timestamp := 0, votes := [] : Proposal })] :
        List (String × Proposal)) "p1" = some
      { id := "p1", type := "snapshot", data := "v1", proposer := "A",
        timestamp := 0, votes := [] }) ∧
    (((collectVote { leader := none, participants := [], lastUpdate := none }
        { activeProposals := [("p1",
            { id := "p1", type := "snapshot", data := "v1", proposer := "A",
              timestamp := 0, votes := [] })], applied := [] }
        "p1" "A" "accept" 5).1.success = true ∧
      ((collectVote { leader := none, participants := [], lastUpdate := none }
        { activeProposals := [("p1",
            { id := "p1", type := "snapshot", data := "v1", proposer := "A",
              timestamp := 0, votes := [] })], applied := [] }
        "p1" "A" "accept" 5).1.quorumReached = some true)) ∧
      (collectVote { leader := none, participants := [], lastUpdate := none }
        { activeProposals := [("p1",
            { id := "p1", type := "snapshot", data := "v1", proposer := "A",
              timestamp := 0, votes := [] })], applied := [] }
        "p1" "A" "accept" 5).2.applied = [] ++ [("snapshot", "v1")] ∧
      mapGet (collectVote { leader := none, participants := [], lastUpdate := none }
        { activeProposals := [("p1",
            { id := "p1", type := "snapshot", data := "v1", proposer := "A",
              timestamp := 0, votes := [] })], applied := [] }
        "p1" "A" "accept" 5).2.activeProposals "p1" = none ∧
      (∀ (coord2 : CoordState) (voter2 vote2 : String) (now2 : Nat),
        collectVote coord2 (collectVote
            { leader := none, participants := [], lastUpdate := none }
            { activeProposals := [("p1",
                { id := "p1", type := "snapshot", data := "v1", proposer := "A",
                  timestamp := 0, votes := [] })], applied := [] }
            "p1" "A" "accept" 5).2 "p1" voter2 vote2 now2 =
          (proposalNotFound, (collectVote
            { leader := none, participants := [], lastUpdate := none }
            { activeProposals := [("p1",
                { id := "p1", type := "snapshot", data := "v1", proposer := "A",
                  timestamp := 0, votes := [] })], applied := [] }
            "p1" "A" "accept" 5).2))) :=
  ⟨by decide,
    C2_quorum_apply_once
      { leader := none, participants := [], lastUpdate := none }
      { activeProposals := [("p1",
          { id := "p1", type := "snapshot", data := "v1", proposer := "A",
            timestamp := 0, votes := [] })], applied := [] }
      "p1" "A" "accept" 5
      { id := "p1", type := "snapshot", data := "v1", proposer := "A",
        timestamp := 0, votes := [] }
      (by decide) (by decide)⟩

/-- A vote map all of whose recorded votes are a fixed value keeps that shape
under `mapSet` with the same value. -/
theorem mapSet_forall_vote (m : List (String × VoteRecord)) (k : String) (v : VoteRecord)
    (val : String) (hm : ∀ kv ∈ m, kv.2.vote = val) (hv : v.vote = val) :
    ∀ kv ∈ mapSet m k v, kv.2.vote = val := by
  induction m with
  | nil =>
    intro kv hkv
    simp only [mapSet, List.mem_singleton] at hkv
    simpa [hkv] using hv
  | cons hd tl ih =>
    obtain ⟨k1, v1⟩ := hd
    intro kv hkv
    by_cases h : k1 = k
    · rw [mapSet, if_pos h] at hkv
      rcases List.mem_cons.mp hkv with hkv | hkv
      · simpa [hkv] using hv
      · exact hm kv (List.mem_cons_of_mem (k1, v1) hkv)
    · rw [mapSet, if_neg h] at hkv
      rcases List.mem_cons.mp hkv with hkv | hkv
      · exact hm kv (by simp [hkv])
      · exact ih (fun kv2 h2 => hm kv2 (List.mem_cons_of_mem (k1, v1) h2)) kv hkv

/-- A vote map containing only reject votes has accept count zero. -/
theorem acceptVotes_eq_zero (m : List (String × VoteRecord))
    (hm : ∀ kv ∈ m, kv.2.vote = "reject") : acceptVotes m = 0 := by
  simp only [acceptVotes, List.countP_eq_zero]
  intro kv hkv
  simp [hm kv hkv]

/-- One `collectVote` call with a reject vote on a proposal whose votes are all
reject keeps the proposal active (with the vote recorded) and triggers no apply. -/
theorem collectVote_reject_step (coord : CoordState) (st : SyncState)
    (pid voter : String) (now : Nat) (p : Proposal)
    (hp : mapGet st.activeProposals pid = some p)
    (hall : ∀ kv ∈ p.votes, kv.2.vote = "reject") :
    mapGet (collectVote coord st pid voter "reject" now).2.activeProposals pid =
      some { p with votes := mapSet p.votes voter { vote := "reject", timestamp := now } } ∧
    (∀ kv ∈ mapSet p.votes voter { vote := "reject", timestamp := now },
      kv.2.vote = "reject") ∧
    (collectVote coord st pid voter "reject" now).2.applied = st.applied := by
  have hall2 : ∀ kv ∈ mapSet p.votes voter { vote := "reject", timestamp := now },
      kv.2.vote = "reject" :=
    mapSet_forall_vote p.votes voter _ "reject" hall rfl
  have hzero : acceptVotes
      (mapSet p.votes voter { vote := "reject", timestamp := now }) = 0 :=
    acceptVotes_eq_zero _ hall2
  have hq : checkQuorumForProposal coord
      { p with votes := mapSet p.votes voter { vote := "reject", timestamp := now } } = false := by
    simp only [checkQuorumForProposal, hzero]
    simp [Nat.succ_le_iff]
    omega
  refine ⟨?_, hall2, ?_⟩
  · simp [collectVote, hp, hq, mapGet_mapSet_self]
  · simp [collectVote, hp, hq]

/-- A sequence of `collectVote` calls, each casting a `'reject'` vote for the
same proposal id (the coordinator state, voter and timestamp of each call are
arbitrary), folded over the sync state. -/
def collectRejectVotes (st : SyncState) (pid : String)
    (calls : List (CoordState × String × Nat)) : SyncState :=
  calls.foldl (fun s c => (collectVote c.1 s pid c.2.1 "reject" c.2.2).2) st

/-- Any sequence of reject votes keeps an all-reject proposal active and never
triggers an apply. -/
theorem collectRejectVotes_keeps (pid : String)
    (calls : List (CoordState × String × Nat)) :
    ∀ (st : SyncState) (p : Proposal),
      mapGet st.activeProposals pid = some p →
      (∀ kv ∈ p.votes, kv.2.vote = "reject") →
      ∃ q, mapGet (collectRejectVotes st pid calls).activeProposals pid = some q ∧
        (∀ kv ∈ q.votes, kv.2.vote = "reject") ∧
        (collectRejectVotes st pid calls).applied = st.applied := by
  induction calls with
  | nil =>
    intro st p hp hall
    exact ⟨p, hp, hall, rfl⟩
  | cons c cs ih =>
    intro st p hp hall
    obtain ⟨h1, h2, h3⟩ := collectVote_reject_step c.1 st pid c.2.1 c.2.2 p hp hall
    obtain ⟨q, hq1, hq2, hq3⟩ := ih (collectVote c.1 st pid c.2.1 "reject" c.2.2).2
      { p with votes := mapSet p.votes c.2.1 { vote := "reject", timestamp := c.2.2 } }
      h1 h2
    refine ⟨q, ?_, hq2, ?_⟩
    · simpa [collectRejectVotes] using hq1
    · calc (collectRejectVotes st pid (c :: cs)).applied
          = (collectVote c.1 st pid c.2.1 "reject" c.2.2).2.applied := by
            simpa [collectRejectVotes] using hq3
        _ = st.applied := h3

/-- C10: collectVote removes an active proposal exactly when the updated
accept-vote count reaches the required threshold; reject votes are recorded
but — in the absence of accept votes — never remove the proposal, so a
proposal that accumulates only reject votes stays in the active set through
any sequence of such calls, with no apply ever triggered. -/
theorem C10_reject_never_removes (st : SyncState) (pid : String) (p : Proposal)
    (hp : mapGet st.activeProposals pid = some p)
    (hall : ∀ kv ∈ p.votes, kv.2.vote = "reject") :
    (∀ (coord : CoordState) (voter vote : String) (now : Nat),
      (mapGet (collectVote coord st pid voter vote now).2.activeProposals pid = none ↔
        checkQuorumForProposal coord
          { p with votes := mapSet p.votes voter { vote := vote, timestamp := now } } = true)) ∧
    (∀ calls : List (CoordState × String × Nat),
      ∃ q, mapGet (collectRejectVotes st pid calls).activeProposals pid = some q ∧
        (∀ kv ∈ q.votes, kv.2.vote = "reject") ∧
        (collectRejectVotes st pid calls).applied = st.applied) := by
  constructor
  · intro coord voter vote now
    by_cases hq : checkQuorumForProposal coord
        { p with votes := mapSet p.votes voter { vote := vote, timestamp := now } } = true
    · simp only [hq, iff_true]
      simp [collectVote, hp, hq, mapGet_mapDelete_self]
    · have hq2 : checkQuorumForProposal coord
          { p with votes := mapSet p.votes voter { vote := vote, timestamp := now } } = false := by
        simpa using hq
      simp only [hq2]
      simp [collectVote, hp, hq2, mapGet_mapSet_self]
  · intro calls
    exact collectRejectVotes_keeps pid calls st p hp hall

/-- C10 witness: a proposal with one recorded reject vote survives a further
pair of reject votes unchanged in the active set, and a reject vote does not
remove it. -/
theorem C10_reject_never_removes_witness :
    ((∀ (coord : CoordState) (voter vote : String) (now : Nat),
      (mapGet (collectVote coord
          { activeProposals := [("p1",
              { id := "p1", type := "diff", data := "d1", proposer := "A",
                timestamp := 0,
                votes := [("B", { vote := "reject", timestamp := 1 })] })],
            applied := [] }
          "p1" voter vote now).2.activeProposals "p1" = none ↔
        checkQuorumForProposal coord
          { id := "p1", type := "diff", data := "d1", proposer := "A",
            timestamp := 0,
            votes := mapSet [("B", { vote := "reject", timestamp := 1 })] voter
              { vote := vote, timestamp := now } } = true)) ∧
    (∀ calls : List (CoordState × String × Nat),
      ∃ q, mapGet (collectRejectVotes
          { activeProposals := [("p1",
              { id := "p1", type := "diff", data := "d1", proposer := "A",
                timestamp := 0,
                votes := [("B", { vote := "reject", timestamp := 1 })] })],
            applied := [] }
          "p1" calls).activeProposals "p1" = some q ∧
        (∀ kv ∈ q.votes, kv.2.vote = "reject") ∧
        (collectRejectVotes
          { activeProposals := [("p1",
              { id := "p1", type := "diff", data := "d1", proposer := "A",
                timestamp := 0,
                votes := [("B", { vote := "reject", timestamp := 1 })] })],
            applied := [] }
          "p1" calls).applied = [])) :=
  C10_reject_never_removes
    { activeProposals := [("p1",
        { id := "p1", type := "diff", data := "d1", proposer := "A",
          timestamp := 0,
          votes := [("B", { vote := "reject", timestamp := 1 })] })],
      applied := [] }
    "p1"
    { id := "p1", type := "diff", data := "d1", proposer := "A",
      timestamp := 0, votes := [("B", { vote := "reject", timestamp := 1 })] }
    (by decide) (by decide)

/-! ## Heartbeat subsystem (heartbeat source, sendHeartbeat) -/

/-- The coordinator-state effect of one `sendHeartbeat()` cycle: it calls
`updateParticipant(localInstanceId, { status: 'healthy', uptime: process.uptime()*1000 })`
for the local instance, then `updateLeaderHeartbeat()` when the local instance
is leader (the network sends to remote peers do not touch local state). -/
def sendHeartbeatCycle (st : CoordState) (localInstanceId : String)
    (uptimeMs now : Nat) : CoordState :=
  let st1 := updateParticipant st localInstanceId
    { status := some "healthy", uptime := some uptimeMs, lastHeartbeat := none } now
  if isLeader st1 localInstanceId then updateLeaderHeartbeat st1 now else st1

/-- C3 (refuted, code bug): starting from the initial coordinator state with
no participants, a single heartbeat send cycle of local instance A inserts A
itself into the participants map, so getParticipants() includes the local
instance and checkQuorum's total counts it twice (total = 2 for a one-instance
cluster). -/
theorem C3_heartbeat_inserts_local_instance :
    mapGet (sendHeartbeatCycle
        { leader := none, participants := [], lastUpdate := none } "A" 5000 1000).participants
      "A" =
      some { id := "A", lastHeartbeat := 1000, status := "healthy", uptime := 5000 } ∧
    getParticipants (sendHeartbeatCycle
        { leader := none, participants := [], lastUpdate := none } "A" 5000 1000) =
      [{ id := "A", lastHeartbeat := 1000, status := "healthy", uptime := 5000 }] ∧
    (checkQuorum (sendHeartbeatCycle
        { leader := none, participants := [], lastUpdate := none } "A" 5000 1000)).total = 2 := by
  refine ⟨?_, ?_, ?_⟩ <;> rfl

/-! ## Leader election (leader-election source, performElection) -/

/-- One election candidate `{ id, uptime, isLocal }` (uptime in milliseconds). -/
structure Candidate where
  id : String
  uptime : Int
  isLocal : Bool
deriving DecidableEq, Repr

/-- The sort comparator of `performElection`: candidate `a` stays before `b`
exactly when `(b.uptime - a.uptime, localeCompare(b.id, a.id))` is
non-positive, i.e. uptime descending with ties broken by id descending. -/
def candidateBefore (a b : Candidate) : Prop :=
  b.uptime < a.uptime ∨ (a.uptime = b.uptime ∧ b.id ≤ a.id)

instance : DecidableRel candidateBefore := fun a b =>
  inferInstanceAs (Decidable (b.uptime < a.uptime ∨ (a.uptime = b.uptime ∧ b.id ≤ a.id)))

instance : IsTotal Candidate candidateBefore :=
  ⟨fun a b => by
    rcases lt_trichotomy a.uptime b.uptime with h | h | h
    · exact Or.inr (Or.inl h)
    · rcases le_total a.id b.id with h2 | h2
      · exact Or.inr (Or.inr ⟨h.symm, h2⟩)
      · exact Or.inl (Or.inr ⟨h, h2⟩)
    · exact Or.inl (Or.inl h)⟩

instance : IsTrans Candidate candidateBefore :=
  ⟨fun a b c hab hbc => by
    rcases hab with hab | ⟨hab1, hab2⟩
    · rcases hbc with hbc | ⟨hbc1, hbc2⟩
      · exact Or.inl (lt_trans hbc hab)
      · exact Or.inl (hbc1 ▸ hab)
    · rcases hbc with hbc | ⟨hbc1, hbc2⟩
      · exact Or.inl (hab1 ▸ hbc)
      · exact Or.inr ⟨hab1.trans hbc1, le_trans hbc2 hab2⟩⟩

theorem candidateBefore_refl (a : Candidate) : candidateBefore a a :=
  Or.inr ⟨rfl, le_refl a.id⟩

/-- `candidates.sort(comparator); candidates[0]`: the head of the candidate
list sorted uptime-descending then id-descending. -/
def electionWinner (candidates : List Candidate) : Option Candidate :=
  (List.insertionSort candidateBefore candidates).head?

/-- The election winner of a non-empty candidate list is a member that the
comparator places before every member. -/
theorem electionWinner_spec (cs : List Candidate) (hne : cs ≠ []) :
    ∃ w, electionWinner cs = some w ∧ w ∈ cs ∧ ∀ c ∈ cs, candidateBefore w c := by
  have hperm := List.perm_insertionSort candidateBefore cs
  have hsorted := List.sorted_insertionSort candidateBefore cs
  match hs : List.insertionSort candidateBefore cs with
  | [] =>
    rw [hs] at hperm
    exact absurd (hperm.symm.eq_nil) hne
  | w :: rest =>
    rw [hs] at hperm hsorted
    refine ⟨w, ?_, ?_, ?_⟩
    · simp [electionWinner, hs]
    · exact hperm.mem_iff.mp (List.mem_cons_self w rest)
    · intro c hc
      have hc2 : c ∈ w :: rest := hperm.symm.mem_iff.mp hc
      rcases List.mem_cons.mp hc2 with hc2 | hc2
      · exact hc2 ▸ candidateBefore_refl w
      · exact List.rel_of_sorted_cons hsorted c hc2

/-- Mutual `candidateBefore` plus distinct-id injectivity forces equality. -/
theorem candidateBefore_antisymm (cs : List Candidate)
    (hnd : (cs.map Candidate.id).Nodup) (a b : Candidate)
    (ha : a ∈ cs) (hb : b ∈ cs)
    (hab : candidateBefore a b) (hba : candidateBefore b a) : a = b := by
  rcases hab with hab | ⟨hab1, hab2⟩
  · rcases hba with hba | ⟨hba1, hba2⟩
    · exact absurd (lt_trans hab hba) (lt_irrefl _)
    · exact absurd (hba1 ▸ hab) (lt_irrefl _)
  · rcases hba with hba | ⟨hba1, hba2⟩
    · exact absurd (hab1 ▸ hba) (lt_irrefl _)
    · exact List.inj_on_of_nodup_map hnd ha hb (le_antisymm hba2 hab2)

/-- C4: on a non-empty candidate list with distinct ids, the election picks a
winner that strictly dominates every other candidate in the order (uptime
descending, ties broken by lexicographically greatest id), and any
re-arrangement of the same candidates yields the same winner. -/
theorem C4_election_winner_maximal (cs : List Candidate) (hne : cs ≠ [])
    (hnd : (cs.map Candidate.id).Nodup) :
    ∃ w, electionWinner cs = some w ∧ w ∈ cs ∧
      (∀ c ∈ cs, c ≠ w →
        c.uptime < w.uptime ∨ (c.uptime = w.uptime ∧ c.id < w.id)) ∧
      (∀ cs2 : List Candidate, cs2.Perm cs → electionWinner cs2 = some w) := by
  obtain ⟨w, hw1, hw2, hw3⟩ := electionWinner_spec cs hne
  refine ⟨w, hw1, hw2, ?_, ?_⟩
  · intro c hc hcw
    rcases hw3 c hc with h | ⟨h1, h2⟩
    · exact Or.inl h
    · refine Or.inr ⟨h1.symm, lt_of_le_of_ne h2 ?_⟩
      intro hid
      exact hcw (List.inj_on_of_nodup_map hnd hc hw2 hid)
  · intro cs2 hperm
    have hne2 : cs2 ≠ [] := by
      intro h
      rw [h] at hperm
      exact hne hperm.nil_eq.symm
    obtain ⟨w2, hw21, hw22, hw23⟩ := electionWinner_spec cs2 hne2
    have hw22' : w2 ∈ cs := hperm.mem_iff.mp hw22
    have hww2 : candidateBefore w w2 := hw3 w2 hw22'
    have hw2w : candidateBefore w2 w := hw23 w (hperm.symm.mem_iff.mp hw2)
    rw [hw21, candidateBefore_antisymm cs hnd w2 w hw22' hw2 hw2w hww2]

/-- C4 witness: among candidates b (uptime 9), c (uptime 9) and a (uptime 5),
the winner is c — highest uptime, tie broken by the greatest id — under any
arrangement of the list. -/
theorem C4_election_winner_maximal_witness :
    ∃ w, electionWinner
        [{ id := "b", uptime := 9, isLocal := true },
         { id := "c", uptime := 9, isLocal := false },
         { id := "a", uptime := 5, isLocal := false }] = some w ∧
      w ∈ [{ id := "b", uptime := 9, isLocal := true },
           { id := "c", uptime := 9, isLocal := false },
           { id := "a", uptime := 5, isLocal := false }] ∧
      (∀ c ∈ [{ id := "b", uptime := 9, isLocal := true },
              { id := "c", uptime := 9, isLocal := false },
              { id := "a", uptime := 5, isLocal := false }], c ≠ w →
        c.uptime < w.uptime ∨ (c.uptime = w.uptime ∧ c.id < w.id)) ∧
      (∀ cs2 : List Candidate,
        cs2.Perm [{ id := "b", uptime := 9, isLocal := true },
                  { id := "c", uptime := 9, isLocal := false },
                  { id := "a", uptime := 5, isLocal := false }] →
          electionWinner cs2 = some w) :=
  C4_election_winner_maximal
    [{ id := "b", uptime := 9, isLocal := true },
     { id := "c", uptime := 9, isLocal := false },
     { id := "a", uptime := 5, isLocal := false }]
    (by decide) (by decide)

/-- One discovered peer together with the outcome of its health probe
(`syncClient.checkInstanceHealth`). -/
structure PeerInfo where
  id : String
  reachable : Bool
deriving DecidableEq, Repr

/-- The events `performElection` can publish on the event bus. -/
inductive ElectionEvent where
  | leaderElected (leaderId : String) (electedAt : Nat)
  | leaderChanged (previousLeader newLeader : String) (electedAt : Nat)
deriving DecidableEq, Repr

/-- The candidate list built by `performElection` when peers are known: the
local instance with the local process uptime, then every reachable remote
peer (skipping entries with the local id) with uptime 0. -/
def electionCandidates (localInstanceId : String) (localUptime : Int)
    (instances : List PeerInfo) : List Candidate :=
  { id := localInstanceId, uptime := localUptime, isLocal := true } ::
    (instances.filter (fun i => i.id ≠ localInstanceId ∧ i.reachable = true)).map
      (fun i => { id := i.id, uptime := 0, isLocal := false })

/-- `performElection()`: with no known instances the local instance elects
itself and publishes LEADER_ELECTED when `coordinatorState.isLeader()` was
false beforehand; otherwise the sorted candidate list's head becomes leader
and, when its id differs from the previous leader's, LEADER_CHANGED (previous
leader existed) or LEADER_ELECTED (none) is published. Returns the elected
leader id, the updated coordinator state and the published events. -/
def performElection (st : CoordState) (localInstanceId : String)
    (localUptime : Int) (instances : List PeerInfo) (now : Nat) :
    Option String × CoordState × List ElectionEvent :=
  if instances.isEmpty then
    let wasLeader := isLeader st localInstanceId
    let st2 := setLeader st localInstanceId now now
    (some localInstanceId, st2,
      if wasLeader then [] else [ElectionEvent.leaderElected localInstanceId now])
  else
    let candidates := electionCandidates localInstanceId localUptime instances
    match electionWinner candidates with
    | none => (none, st, [])
    | some newLeader =>
      let previousLeader := st.leader.map (fun l => l.id)
      let st2 := setLeader st newLeader.id now now
      let events :=
        if previousLeader ≠ some newLeader.id then
          match previousLeader with
          | some prev => [ElectionEvent.leaderChanged prev newLeader.id now]
          | none => [ElectionEvent.leaderElected newLeader.id now]
        else []
      (some newLeader.id, st2, events)

/-- C5 counterexample: with previous leader B, local instance A and no known
peers, performElection sets leader A (different id from B) yet publishes a
single leader-elected event, not the leader-changed event the claim requires
when a previous leader existed. -/
theorem C5_counterexample_no_peers_branch :
    (performElection
        { leader := some { id := "B", electedAt := 0, lastHeartbeat := 0 },
          participants := [], lastUpdate := none }
        "A" 1000 [] 7).2.2 = [ElectionEvent.leaderElected "A" 7] ∧
    (performElection
        { leader := some { id := "B", electedAt := 0, lastHeartbeat := 0 },
          participants := [], lastUpdate := none }
        "A" 1000 [] 7).2.1.leader =
      some { id := "A", electedAt := 7, lastHeartbeat := 7 } ∧
    ({ leader := some { id := "B", electedAt := 0, lastHeartbeat := 0 },
       participants := [], lastUpdate := none } : CoordState).leader =
      some { id := "B", electedAt := 0, lastHeartbeat := 0 } ∧
    ("A" : String) ≠ "B" := by
  refine ⟨rfl, rfl, rfl, by decide⟩

/-- C5 amended: on the branch with at least one known peer, an election whose
winner differs from the previous leader publishes exactly one event —
leader-changed (with previousLeader, newLeader, electedAt) when a previous
leader existed, leader-elected when not — and no event when the leader is
unchanged.  On the no-peers branch the local instance elects itself and
publishes exactly one leader-elected event iff it was not already leader,
even when a different previous leader existed; leader-changed is never
published there. -/
theorem C5_election_events (st : CoordState) (localInstanceId : String)
    (localUptime : Int) (instances : List PeerInfo) (now : Nat) :
    (instances = [] →
      (performElection st localInstanceId localUptime instances now).2.2 =
        (if isLeader st localInstanceId then []
         else [ElectionEvent.leaderElected localInstanceId now])) ∧
    (instances ≠ [] →
      ∀ w, electionWinner (electionCandidates localInstanceId localUptime instances) = some w →
        ((st.leader = none →
          (performElection st localInstanceId localUptime instances now).2.2 =
            [ElectionEvent.leaderElected w.id now]) ∧
        (∀ L, st.leader = some L → L.id ≠ w.id →
          (performElection st localInstanceId localUptime instances now).2.2 =
            [ElectionEvent.leaderChanged L.id w.id now]) ∧
        (∀ L, st.leader = some L → L.id = w.id →
          (performElection st localInstanceId localUptime instances now).2.2 = []))) := by
  constructor
  · intro h
    subst h
    simp [performElection]
  · intro hne w hw
    have hemp : instances.isEmpty = false := by
      cases instances with
      | nil => exact absurd rfl hne
      | cons a l => rfl
    refine ⟨?_, ?_, ?_⟩
    · intro hnone
      simp [performElection, hemp, hw, hnone]
    · intro L hL hdiff
      simp [performElection, hemp, hw, hL, hdiff]
    · intro L hL heq
      simp [performElection, hemp, hw, hL, heq]

/-- C5 amended witness: concrete runs of both branches — no peers with the
local instance already leader (no event) and not leader (one leader-elected
event); one reachable peer with no previous leader (leader-elected), with a
different previous leader (leader-changed), and with the winner already
leader (no event). -/
theorem C5_election_events_witness :
    ((([] : List PeerInfo) = [] →
      (performElection
          { leader := some { id := "B", electedAt := 0, lastHeartbeat := 0 },
            participants := [], lastUpdate := none } "A" 1000 [] 7).2.2 =
        (if isLeader
            { leader := some { id := "B", electedAt := 0, lastHeartbeat := 0 },
              participants := [], lastUpdate := none } "A" then []
         else [ElectionEvent.leaderElected "A" 7])) ∧
     (([{ id := "R", reachable := true }] : List PeerInfo) ≠ [] ∧
      electionWinner (electionCandidates "A" 1000 [{ id := "R", reachable := true }]) =
        some { id := "A", uptime := 1000, isLocal := true } ∧
      (performElection
          { leader := none, participants := [], lastUpdate := none }
          "A" 1000 [{ id := "R", reachable := true }] 7).2.2 =
        [ElectionEvent.leaderElected "A" 7] ∧
      (performElection
          { leader := some { id := "B", electedAt := 0, lastHeartbeat := 0 },
            participants := [], lastUpdate := none }
          "A" 1000 [{ id := "R", reachable := true }] 7).2.2 =
        [ElectionEvent.leaderChanged "B" "A" 7] ∧
      (performElection
          { leader := some { id := "A", electedAt := 0, lastHeartbeat := 0 },
            participants := [], lastUpdate := none }
          "A" 1000 [{ id := "R", reachable := true }] 7).2.2 = [])) :=
  ⟨(C5_election_events
      { leader := some { id := "B", electedAt := 0, lastHeartbeat := 0 },
        participants := [], lastUpdate := none } "A" 1000 [] 7).1,
   by decide,
   by decide,
   ((C5_election_events
      { leader := none, participants := [], lastUpdate := none }
      "A" 1000 [{ id := "R", reachable := true }] 7).2
      (by decide) { id := "A", uptime := 1000, isLocal := true } (by decide)).1 rfl,
   ((C5_election_events
      { leader := some { id := "B", electedAt := 0, lastHeartbeat := 0 },
        participants := [], lastUpdate := none }
      "A" 1000 [{ id := "R", reachable := true }] 7).2
      (by decide) { id := "A", uptime := 1000, isLocal := true } (by decide)).2.1
      { id := "B", electedAt := 0, lastHeartbeat := 0 } rfl (by decide),
   ((C5_election_events
      { leader := some { id := "A", electedAt := 0, lastHeartbeat := 0 },
        participants := [], lastUpdate := none }
      "A" 1000 [{ id := "R", reachable := true }] 7).2
      (by decide) { id := "A", uptime := 1000, isLocal := true } (by decide)).2.2
      { id := "A", electedAt := 0, lastHeartbeat := 0 } rfl rfl⟩

/-- C9: performElection gives every reachable remote candidate uptime 0 while
the local candidate carries the local process uptime, so whenever the local
process has any positive uptime the local instance wins the election
regardless of the remote instances' actual uptimes or ids. -/
theorem C9_local_always_wins (st : CoordState) (localInstanceId : String)
    (localUptime : Int) (instances : List PeerInfo) (now : Nat)
    (hu : 0 < localUptime) (hne : instances ≠ []) :
    (∀ c ∈ electionCandidates localInstanceId localUptime instances,
      c.isLocal = false → c.uptime = 0) ∧
    (∀ c ∈ electionCandidates localInstanceId localUptime instances,
      c.isLocal = true → c.id = localInstanceId ∧ c.uptime = localUptime) ∧
    (performElection st localInstanceId localUptime instances now).1 =
      some localInstanceId := by
  have hremote : ∀ c ∈ (instances.filter
      (fun i => i.id ≠ localInstanceId ∧ i.reachable = true)).map
        (fun i => ({ id := i.id, uptime := 0, isLocal := false } : Candidate)),
      c.uptime = 0 ∧ c.isLocal = false := by
    intro c hc
    obtain ⟨i, _, hi⟩ := List.mem_map.mp hc
    rw [← hi]
    exact ⟨rfl, rfl⟩
  refine ⟨?_, ?_, ?_⟩
  · intro c hc hlocal
    rcases List.mem_cons.mp hc with hc | hc
    · rw [hc] at hlocal
      exact absurd hlocal (by simp)
    · exact (hremote c hc).1
  · intro c hc hlocal
    rcases List.mem_cons.mp hc with hc | hc
    · rw [hc]
      exact ⟨rfl, rfl⟩
    · exact absurd hlocal (by simp [(hremote c hc).2])
  · have hcne : electionCandidates localInstanceId localUptime instances ≠ [] := by
      simp [electionCandidates]
    obtain ⟨w, hw1, hw2, hw3⟩ :=
      electionWinner_spec (electionCandidates localInstanceId localUptime instances) hcne
    have hwlocal : w = { id := localInstanceId, uptime := localUptime, isLocal := true } := by
      rcases List.mem_cons.mp hw2 with hw2 | hw2
      · exact hw2
      · exfalso
        have hb : candidateBefore w
            { id := localInstanceId, uptime := localUptime, isLocal := true } :=
          hw3 _ (List.mem_cons_self _ _)
        have hz : w.uptime = 0 := (hremote w hw2).1
        rcases hb with hb | ⟨hb1, _⟩
        · rw [hz] at hb
          exact absurd (lt_trans hu hb) (lt_irrefl _)
        · rw [hz] at hb1
          exact absurd (hb1 ▸ hu) (lt_irrefl _)
    have hemp : instances.isEmpty = false := by
      cases instances with
      | nil => exact absurd rfl hne
      | cons a l => rfl
    rw [hwlocal] at hw1
    simp [performElection, hemp, hw1]

/-- C9 witness: local instance A with uptime 1 wins against remote peers with
greater real uptimes and lexicographically greater ids (they enter the
candidate list with uptime 0). -/
theorem C9_local_always_wins_witness :
    (0 : Int) < 1 ∧
    ([{ id := "Z", reachable := true }, { id := "Y", reachable := true }] :
      List PeerInfo) ≠ [] ∧
    (∀ c ∈ electionCandidates "A" 1
        [{ id := "Z", reachable := true }, { id := "Y", reachable := true }],
      c.isLocal = false → c.uptime = 0) ∧
    (∀ c ∈ electionCandidates "A" 1
        [{ id := "Z", reachable := true }, { id := "Y", reachable := true }],
      c.isLocal = true → c.id = "A" ∧ c.uptime = 1) ∧
    (performElection { leader := none, participants := [], lastUpdate := none }
        "A" 1 [{ id := "Z", reachable := true }, { id := "Y", reachable := true }] 3).1 =
      some "A" :=
  ⟨by decide, by decide,
    C9_local_always_wins
      { leader := none, participants := [], lastUpdate := none }
      "A" 1 [{ id := "Z", reachable := true }, { id := "Y", reachable := true }] 3
      (by decide) (by decide)⟩

/-! ## Distributed Lock Service (lock-service source) -/

/-- The default lock TTL (`LOCK_TTL`, ms). -/
def LOCK_TTL : Nat := 30000

/-- The lock renewal cadence (`LOCK_RENEWAL_INTERVAL`, ms). -/
def LOCK_RENEWAL_INTERVAL : Nat := 10000

/-- One active lock `{ resource, holder, acquiredAt, expiresAt }`. -/
structure Lock where
  resource : String
  holder : String
  acquiredAt : Nat
  expiresAt : Nat
deriving DecidableEq, Repr

/-- Lock service state: the `activeLocks` map and the set of resources with a
running renewal timer (`renewalTimers` keys). -/
structure LockState where
  activeLocks : List (String × Lock)
  renewalTimers : List String
deriving DecidableEq, Repr

/-- `stopLockRenewal(resource)`: clear and drop the renewal timer. -/
def stopLockRenewal (timers : List String) (resource : String) : List String :=
  timers.filter (fun r => r ≠ resource)

/-- `startLockRenewal(resource, ttl)` timer bookkeeping: stop any previous
timer, then register the new one. -/
def startLockRenewalTimers (timers : List String) (resource : String) : List String :=
  stopLockRenewal timers resource ++ [resource]

/-- The labelled exit paths of `acquireLock` (the reasons recorded on its
trace events and failure metrics). -/
inductive AcquireOutcome where
  | notLeader
  | alreadyLocked (holder : String)
  | renewed
  | acquired
deriving DecidableEq, Repr

/-- `releaseLock(resource, checkHolder = true)`: no-op when the lock does not
exist or (with checkHolder) the caller is not the holder; otherwise stop the
renewal timer and delete the lock. -/
def releaseLock (st : LockState) (localInstanceId resource : String)
    (checkHolder : Bool) : Bool × LockState :=
  match mapGet st.activeLocks resource with
  | none => (false, st)
  | some lock =>
    if checkHolder ∧ lock.holder ≠ localInstanceId then (false, st)
    else
      (true,
       { activeLocks := mapDelete st.activeLocks resource
         renewalTimers := stopLockRenewal st.renewalTimers resource })

/-- `acquireLock(resource, ttl = LOCK_TTL)`: fail when
`coordinatorState.isLeader()` is false; renew when the caller already holds a
non-expired lock; fail when another holder does; otherwise (releasing any
expired lock first) create the lock and start its renewal timer. -/
def acquireLock (coord : CoordState) (st : LockState)
    (localInstanceId resource : String) (ttl now : Nat) : AcquireOutcome × LockState :=
  if isLeader coord localInstanceId = false then (AcquireOutcome.notLeader, st)
  else
    let afterExisting :=
      match mapGet st.activeLocks resource with
      | none => some st
      | some existingLock =>
        if now < existingLock.expiresAt then
          if existingLock.holder ≠ localInstanceId then none
          else
            some { st with activeLocks := (mapSet st.activeLocks resource
              { existingLock with expiresAt := now + ttl }) }
        else some (releaseLock st localInstanceId resource false).2
    match mapGet st.activeLocks resource, afterExisting with
    | some existingLock, none => (AcquireOutcome.alreadyLocked existingLock.holder, st)
    | some existingLock, some st2 =>
      if now < existingLock.expiresAt then (AcquireOutcome.renewed, st2)
      else
        (AcquireOutcome.acquired,
         { activeLocks := (mapSet st2.activeLocks resource
             { resource := resource, holder := localInstanceId,
               acquiredAt := now, expiresAt := now + ttl })
           renewalTimers := startLockRenewalTimers st2.renewalTimers resource })
    | none, _ =>
      (AcquireOutcome.acquired,
       { activeLocks := (mapSet st.activeLocks resource
           { resource := resource, holder := localInstanceId,
             acquiredAt := now, expiresAt := now + ttl })
         renewalTimers := startLockRenewalTimers st.renewalTimers resource })

/-- One tick of the renewal timer started by `startLockRenewal`: stop the
timer when the lock is gone; release the lock when the process is no longer
leader; otherwise extend `expiresAt` to `now + ttl`. -/
def renewalTick (coord : CoordState) (st : LockState)
    (localInstanceId resource : String) (ttl now : Nat) : LockState :=
  match mapGet st.activeLocks resource with
  | none => { st with renewalTimers := stopLockRenewal st.renewalTimers resource }
  | some lock =>
    if isLeader coord localInstanceId = false then
      (releaseLock st localInstanceId resource false).2
    else
      { st with activeLocks := (mapSet st.activeLocks resource
          { lock with expiresAt := now + ttl }) }

/-- C6: when the calling instance is not the current leader, acquireLock
always exits on the not_leader path and leaves the lock state (in particular
the active-locks table) unchanged, whatever the state of the resource. -/
theorem C6_acquireLock_not_leader (coord : CoordState) (st : LockState)
    (localInstanceId resource : String) (ttl now : Nat)
    (h : isLeader coord localInstanceId = false) :
    acquireLock coord st localInstanceId resource ttl now =
      (AcquireOutcome.notLeader, st) := by
  simp [acquireLock, h]

/-- C6 witness: with leader B, instance A trying to lock a resource already
locked, expired-locked, or free, always fails not_leader with the table kept. -/
theorem C6_acquireLock_not_leader_witness :
    isLeader { leader := some { id := "B", electedAt := 0, lastHeartbeat := 0 },
               participants := [], lastUpdate := none } "A" = false ∧
    acquireLock
      { leader := some { id := "B", electedAt := 0, lastHeartbeat := 0 },
        participants := [], lastUpdate := none }
      { activeLocks := [("build",
          { resource := "build", holder := "B", acquiredAt := 0, expiresAt := 50 })],
        renewalTimers := ["build"] }
      "A" "build" 30000 10 =
      (AcquireOutcome.notLeader,
       { activeLocks := [("build",
           { resource := "build", holder := "B", acquiredAt := 0, expiresAt := 50 })],
         renewalTimers := ["build"] }) ∧
    acquireLock
      { leader := some { id := "B", electedAt := 0, lastHeartbeat := 0 },
        participants := [], lastUpdate := none }
      { activeLocks := [], renewalTimers := [] }
      "A" "free" 30000 10 =
      (AcquireOutcome.notLeader, { activeLocks := [], renewalTimers := [] }) :=
  ⟨by decide,
   C6_acquireLock_not_leader
     { leader := some { id := "B", electedAt := 0, lastHeartbeat := 0 },
       participants := [], lastUpdate := none }
     { activeLocks := [("build",
         { resource := "build", holder := "B", acquiredAt := 0, expiresAt := 50 })],
       renewalTimers := ["build"] }
     "A" "build" 30000 10 (by decide),
   C6_acquireLock_not_leader
     { leader := some { id := "B", electedAt := 0, lastHeartbeat := 0 },
       participants := [], lastUpdate := none }
     { activeLocks := [], renewalTimers := [] }
     "A" "free" 30000 10 (by decide)⟩

/-- C7: the renewal timer runs on a 10-second cadence, and each tick on a held
lock extends its expiresAt to now + ttl while the process is leader; on a tick
where it is no longer leader, the lock is removed from the active set and its
renewal timer stopped, without any explicit releaseLock call by the holder. -/
theorem C7_renewal_tick (coord : CoordState) (st : LockState)
    (localInstanceId resource : String) (ttl now : Nat) (lock : Lock)
    (hlock : mapGet st.activeLocks resource = some lock) :
    LOCK_RENEWAL_INTERVAL = 10000 ∧
    (isLeader coord localInstanceId = true →
      mapGet (renewalTick coord st localInstanceId resource ttl now).activeLocks resource =
        some { lock with expiresAt := now + ttl }) ∧
    (isLeader coord localInstanceId = false →
      mapGet (renewalTick coord st localInstanceId resource ttl now).activeLocks resource =
        none ∧
      resource ∉ (renewalTick coord st localInstanceId resource ttl now).renewalTimers) := by
  refine ⟨rfl, ?_, ?_⟩
  · intro h
    simp [renewalTick, hlock, h, mapGet_mapSet_self]
  · intro h
    constructor
    · simp [renewalTick, hlock, h, releaseLock, mapGet_mapDelete_self]
    · simp [renewalTick, hlock, h, releaseLock, stopLockRenewal]

/-- C7 witness: a held lock on resource build is extended to now + ttl by a
tick under leadership, and removed with its timer stopped by a tick after
leadership is lost. -/
theorem C7_renewal_tick_witness :
    (LOCK_RENEWAL_INTERVAL = 10000 ∧
      (isLeader { leader := some { id := "A", electedAt := 0, lastHeartbeat := 0 },
                  participants := [], lastUpdate := none } "A" = true →
        mapGet (renewalTick
            { leader := some { id := "A", electedAt := 0, lastHeartbeat := 0 },
              participants := [], lastUpdate := none }
            { activeLocks := [("build",
                { resource := "build", holder := "A", acquiredAt := 0, expiresAt := 30000 })],
              renewalTimers := ["build"] }
            "A" "build" 30000 10000).activeLocks "build" =
          some { resource := "build", holder := "A", acquiredAt := 0, expiresAt := 40000 }) ∧
      (isLeader { leader := some { id := "A", electedAt := 0, lastHeartbeat := 0 },
                  participants := [], lastUpdate := none } "A" = false →
        mapGet (renewalTick
            { leader := some { id := "A", electedAt := 0, lastHeartbeat := 0 },
              participants := [], lastUpdate := none }
            { activeLocks := [("build",
                { resource := "build", holder := "A", acquiredAt := 0, expiresAt := 30000 })],
              renewalTimers := ["build"] }
            "A" "build" 30000 10000).activeLocks "build" = none ∧
        "build" ∉ (renewalTick
            { leader := some { id := "A", electedAt := 0, lastHeartbeat := 0 },
              participants := [], lastUpdate := none }
            { activeLocks := [("build",
                { resource := "build", holder := "A", acquiredAt := 0, expiresAt := 30000 })],
              renewalTimers := ["build"] }
            "A" "build" 30000 10000).renewalTimers)) ∧
    (LOCK_RENEWAL_INTERVAL = 10000 ∧
      (isLeader { leader := some { id := "B", electedAt := 0, lastHeartbeat := 0 },
                  participants := [], lastUpdate := none } "A" = true →
        mapGet (renewalTick
            { leader := some { id := "B", electedAt := 0, lastHeartbeat := 0 },
              participants := [], lastUpdate := none }
            { activeLocks := [("build",
                { resource := "build", holder := "A", acquiredAt := 0, expiresAt := 30000 })],
              renewalTimers := ["build"] }
            "A" "build" 30000 10000).activeLocks "build" =
          some { resource := "build", holder := "A", acquiredAt := 0, expiresAt := 40000 }) ∧
      (isLeader { leader := some { id := "B", electedAt := 0, lastHeartbeat := 0 },
                  participants := [], lastUpdate := none } "A" = false →
        mapGet (renewalTick
            { leader := some { id := "B", electedAt := 0, lastHeartbeat := 0 },
              participants := [], lastUpdate := none }
            { activeLocks := [("build",
                { resource := "build", holder := "A", acquiredAt := 0, expiresAt := 30000 })],
              renewalTimers := ["build"] }
            "A" "build" 30000 10000).activeLocks "build" = none ∧
        "build" ∉ (renewalTick
            { leader := some { id := "B", electedAt := 0, lastHeartbeat := 0 },
              participants := [], lastUpdate := none }
            { activeLocks := [("build",
                { resource := "build", holder := "A", acquiredAt := 0, expiresAt := 30000 })],
              renewalTimers := ["build"] }
            "A" "build" 30000 10000).renewalTimers)) :=
  ⟨C7_renewal_tick
     { leader := some { id := "A", electedAt := 0, lastHeartbeat := 0 },
       participants := [], lastUpdate := none }
     { activeLocks := [("build",
         { resource := "build", holder := "A", acquiredAt := 0, expiresAt := 30000 })],
       renewalTimers := ["build"] }
     "A" "build" 30000 10000
     { resource := "build", holder := "A", acquiredAt := 0, expiresAt := 30000 }
     (by decide),
   C7_renewal_tick
     { leader := some { id := "B", electedAt := 0, lastHeartbeat := 0 },
       participants := [], lastUpdate := none }
     { activeLocks := [("build",
         { resource := "build", holder := "A", acquiredAt := 0, expiresAt := 30000 })],
       renewalTimers := ["build"] }
     "A" "build" 30000 10000
     { resource := "build", holder := "A", acquiredAt := 0, expiresAt := 30000 }
     (by decide)⟩

/-! ## Conflict Resolution (src/distributed/conflict-resolution.mjs) -/

/-- A snapshot payload `{ version, hash }`. -/
structure SnapshotPayload where
  version : String
  hash : String
deriving DecidableEq, Repr

/-- A conflicting snapshot candidate `{ sourceInstance, timestamp, payload }`. -/
structure SnapshotCandidate where
  sourceInstance : String
  timestamp : Int
  payload : SnapshotPayload
deriving DecidableEq, Repr

/-- A diff payload; `fromVersion` and `toVersion` model the source fields
`from` and `to` (Lean keywords). -/
structure DiffPayload where
  fromVersion : String
  toVersion : String
deriving DecidableEq, Repr

/-- A conflicting diff candidate `{ sourceInstance, timestamp, payload }`. -/
structure DiffCandidate where
  sourceInstance : String
  timestamp : Int
  payload : DiffPayload
deriving DecidableEq, Repr

/-- The object returned by `resolveParallelSnapshots`. -/
structure SnapshotResolveResult where
  resolved : Bool
  strategy : Option String
  resolvedSnapshot : Option SnapshotCandidate
  reason : Option String
  hashes : Option (List String)
deriving DecidableEq, Repr

/-- The object returned by `resolveConcurrentDiffs`. -/
structure DiffResolveResult where
  resolved : Bool
  strategy : Option String
  resolvedDiff : Option DiffCandidate
  reason : Option String
  targets : Option (List String)
deriving DecidableEq, Repr

/-- `new Set(xs)` converted back to an array: first-occurrence deduplication. -/
def jsSetDedup (xs : List String) : List String :=
  xs.foldl (fun acc h => if h ∈ acc then acc else acc ++ [h]) []

/-- JS `reduce` with no seed picking the latest timestamp
(`current.timestamp > latest.timestamp ? current : latest`). -/
def lwwReduceSnap (s0 : SnapshotCandidate) (rest : List SnapshotCandidate) :
    SnapshotCandidate :=
  rest.foldl (fun latest current =>
    if latest.timestamp < current.timestamp then current else latest) s0

/-- JS `reduce` with no seed picking the latest timestamp, for diffs. -/
def lwwReduceDiff (d0 : DiffCandidate) (rest : List DiffCandidate) : DiffCandidate :=
  rest.foldl (fun latest current =>
    if latest.timestamp < current.timestamp then current else latest) d0

/-- `resolveParallelSnapshots(snapshots, strategy)`; an unknown strategy
throws, modelled as `Except.error`. -/
def resolveParallelSnapshots (leader : Option String)
    (snapshots : List SnapshotCandidate) (strategy : String) :
    Except String SnapshotResolveResult :=
  match snapshots with
  | [] => Except.ok
      { resolved := false, strategy := none, resolvedSnapshot := none,
        reason := some "no_conflicts", hashes := none }
  | s0 :: rest =>
    if strategy = "last-write-wins" then
      Except.ok
        { resolved := true, strategy := some strategy,
          resolvedSnapshot := some (lwwReduceSnap s0 rest),
          reason := some "last-write-wins (latest timestamp)", hashes := none }
    else if strategy = "leader-wins" then
      match leader.bind (fun lid => (s0 :: rest).find? (fun s => s.sourceInstance = lid)) with
      | some w => Except.ok
          { resolved := true, strategy := some strategy, resolvedSnapshot := some w,
            reason := some "leader-wins", hashes := none }
      | none => Except.ok
          { resolved := true, strategy := some strategy,
            resolvedSnapshot := some (lwwReduceSnap s0 rest),
            reason := some "leader-wins (fallback to last-write-wins)", hashes := none }
    else if strategy = "reject-inconsistent" then
      let uniqueHashes := jsSetDedup ((s0 :: rest).map (fun s => s.payload.hash))
      if 1 < uniqueHashes.length then
        Except.ok
          { resolved := false, strategy := none, resolvedSnapshot := none,
            reason := some "hash_mismatch", hashes := some uniqueHashes }
      else
        Except.ok
          { resolved := true, strategy := some strategy, resolvedSnapshot := some s0,
            reason := some "reject-inconsistent (hashes match)", hashes := none }
    else Except.error strategy

/-- `resolveConcurrentDiffs(diffs, strategy)`; an unknown strategy throws,
modelled as `Except.error`. -/
def resolveConcurrentDiffs (leader : Option String)
    (diffs : List DiffCandidate) (strategy : String) :
    Except String DiffResolveResult :=
  match diffs with
  | [] => Except.ok
      { resolved := false, strategy := none, resolvedDiff := none,
        reason := some "no_conflicts", targets := none }
  | d0 :: rest =>
    if strategy = "last-write-wins" then
      Except.ok
        { resolved := true, strategy := some strategy,
          resolvedDiff := some (lwwReduceDiff d0 rest),
          reason := some "last-write-wins (latest timestamp)", targets := none }
    else if strategy = "leader-wins" then
      match leader.bind (fun lid => (d0 :: rest).find? (fun d => d.sourceInstance = lid)) with
      | some w => Except.ok
          { resolved := true, strategy := some strategy, resolvedDiff := some w,
            reason := some "leader-wins", targets := none }
      | none => Except.ok
          { resolved := true, strategy := some strategy,
            resolvedDiff := some (lwwReduceDiff d0 rest),
            reason := some "leader-wins (fallback to last-write-wins)", targets := none }
    else if strategy = "reject-inconsistent" then
      let uniqueTargets := jsSetDedup ((d0 :: rest).map (fun d => d.payload.toVersion))
      if 1 < uniqueTargets.length then
        Except.ok
          { resolved := false, strategy := none, resolvedDiff := none,
            reason := some "inconsistent_target_versions", targets := some uniqueTargets }
      else
        Except.ok
          { resolved := true, strategy := some strategy, resolvedDiff := some d0,
            reason := some "reject-inconsistent (target versions match)", targets := none }
    else Except.error strategy

theorem mem_jsSetDedup_aux (xs acc : List String) (a : String) :
    a ∈ xs.foldl (fun acc2 h => if h ∈ acc2 then acc2 else acc2 ++ [h]) acc ↔
      a ∈ acc ∨ a ∈ xs := by
  induction xs generalizing acc with
  | nil => simp
  | cons x rest ih =>
    simp only [List.foldl_cons, ih, List.mem_cons]
    by_cases hx : x ∈ acc
    · simp only [if_pos hx]
      constructor
      · rintro (h | h)
        · exact Or.inl h
        · exact Or.inr (Or.inr h)
      · rintro (h | h | h)
        · exact Or.inl h
        · exact Or.inl (h ▸ hx)
        · exact Or.inr h
    · simp only [if_neg hx, List.mem_append, List.mem_singleton]
      tauto

theorem mem_jsSetDedup (xs : List String) (a : String) :
    a ∈ jsSetDedup xs ↔ a ∈ xs := by
  simpa [jsSetDedup] using mem_jsSetDedup_aux xs [] a

theorem nodup_jsSetDedup_aux (xs : List String) :
    ∀ acc : List String, acc.Nodup →
      (xs.foldl (fun acc2 h => if h ∈ acc2 then acc2 else acc2 ++ [h]) acc).Nodup := by
  induction xs with
  | nil => intro acc hacc; simpa using hacc
  | cons x rest ih =>
    intro acc hacc
    simp only [List.foldl_cons]
    by_cases hx : x ∈ acc
    · simpa [if_pos hx] using ih acc hacc
    · rw [if_neg hx]
      refine ih (acc ++ [x]) ?_
      simpa [List.nodup_append, hx] using hacc

theorem nodup_jsSetDedup (xs : List String) : (jsSetDedup xs).Nodup :=
  nodup_jsSetDedup_aux xs [] List.nodup_nil

/-- A duplicate-free list whose members all equal one value has length ≤ 1. -/
theorem length_le_one_of_nodup_const (l : List String) (c : String)
    (hnd : l.Nodup) (hall : ∀ a ∈ l, a = c) : l.length ≤ 1 := by
  match l with
  | [] => simp
  | [a] => simp
  | a :: b :: rest =>
    exfalso
    have ha : a = c := hall a (by simp)
    have hb : b = c := hall b (by simp)
    have : a ≠ b := by
      intro h
      exact (List.nodup_cons.mp hnd).1 (h ▸ List.mem_cons_self b rest)
    exact this (ha.trans hb.symm)

/-- Two distinct members force a duplicate-free overapproximation of length ≥ 2,
phrased for the dedup of a list containing both. -/
theorem one_lt_length_jsSetDedup (xs : List String) (a b : String)
    (ha : a ∈ xs) (hb : b ∈ xs) (hab : a ≠ b) : 1 < (jsSetDedup xs).length := by
  have ha2 : a ∈ jsSetDedup xs := (mem_jsSetDedup xs a).mpr ha
  have hb2 : b ∈ jsSetDedup xs := (mem_jsSetDedup xs b).mpr hb
  match h : jsSetDedup xs with
  | [] => rw [h] at ha2; simp at ha2
  | [c] =>
    rw [h] at ha2 hb2
    simp only [List.mem_singleton] at ha2 hb2
    exact absurd (ha2.trans hb2.symm) hab
  | c :: d :: rest => simp

/-- C8: with the reject-inconsistent strategy on a non-empty candidate list,
resolveParallelSnapshots reports resolved:false with reason hash_mismatch and
the duplicate-free list of the distinct hashes whenever two candidates carry
different hashes, and resolved:true with one of the candidates as winner when
all hashes agree; resolveConcurrentDiffs analogously rejects on differing
target versions and accepts one candidate when they all agree. -/
theorem C8_reject_inconsistent (leader : Option String)
    (s0 : SnapshotCandidate) (srest : List SnapshotCandidate)
    (d0 : DiffCandidate) (drest : List DiffCandidate) :
    ((∃ a ∈ s0 :: srest, ∃ b ∈ s0 :: srest, a.payload.hash ≠ b.payload.hash) →
      ∃ hs, resolveParallelSnapshots leader (s0 :: srest) "reject-inconsistent" =
          Except.ok
            { resolved := false, strategy := none, resolvedSnapshot := none,
              reason := some "hash_mismatch", hashes := some hs } ∧
        hs.Nodup ∧ ∀ h, h ∈ hs ↔ ∃ s ∈ s0 :: srest, s.payload.hash = h) ∧
    ((∀ a ∈ s0 :: srest, ∀ b ∈ s0 :: srest, a.payload.hash = b.payload.hash) →
      ∃ w, resolveParallelSnapshots leader (s0 :: srest) "reject-inconsistent" =
          Except.ok
            { resolved := true, strategy := some "reject-inconsistent",
              resolvedSnapshot := some w,
              reason := some "reject-inconsistent (hashes match)", hashes := none } ∧
        w ∈ s0 :: srest) ∧
    ((∃ a ∈ d0 :: drest, ∃ b ∈ d0 :: drest, a.payload.toVersion ≠ b.payload.toVersion) →
      ∃ ts, resolveConcurrentDiffs leader (d0 :: drest) "reject-inconsistent" =
          Except.ok
            { resolved := false, strategy := none, resolvedDiff := none,
              reason := some "inconsistent_target_versions", targets := some ts } ∧
        ts.Nodup ∧ ∀ t, t ∈ ts ↔ ∃ d ∈ d0 :: drest, d.payload.toVersion = t) ∧
    ((∀ a ∈ d0 :: drest, ∀ b ∈ d0 :: drest, a.payload.toVersion = b.payload.toVersion) →
      ∃ w, resolveConcurrentDiffs leader (d0 :: drest) "reject-inconsistent" =
          Except.ok
            { resolved := true, strategy := some "reject-inconsistent",
              resolvedDiff := some w,
              reason := some "reject-inconsistent (target versions match)", targets := none } ∧
        w ∈ d0 :: drest) := by
  refine ⟨?_, ?_, ?_, ?_⟩
  · rintro ⟨a, ha, b, hb, hab⟩
    have hlen : 1 < (jsSetDedup ((s0 :: srest).map (fun s => s.payload.hash))).length :=
      one_lt_length_jsSetDedup _ a.payload.hash b.payload.hash
        (List.mem_map_of_mem _ ha) (List.mem_map_of_mem _ hb) hab
    rw [List.map_cons] at hlen
    refine ⟨jsSetDedup ((s0 :: srest).map (fun s => s.payload.hash)), ?_, ?_, ?_⟩
    · simp [resolveParallelSnapshots, hlen]
    · exact nodup_jsSetDedup _
    · intro h
      rw [mem_jsSetDedup]
      simp only [List.mem_map]
  · intro hall
    have hconst : ∀ h ∈ jsSetDedup ((s0 :: srest).map (fun s => s.payload.hash)),
        h = s0.payload.hash := by
      intro h hh
      rw [mem_jsSetDedup] at hh
      obtain ⟨s, hs, rfl⟩ := List.mem_map.mp hh
      exact hall s hs s0 (List.mem_cons_self s0 srest)
    have hlen : (jsSetDedup ((s0 :: srest).map (fun s => s.payload.hash))).length ≤ 1 :=
      length_le_one_of_nodup_const _ s0.payload.hash (nodup_jsSetDedup _) hconst
    have hnlt : ¬ 1 < (jsSetDedup ((s0 :: srest).map (fun s => s.payload.hash))).length := by
      omega
    rw [List.map_cons] at hnlt
    exact ⟨s0, by simp [resolveParallelSnapshots, hnlt], List.mem_cons_self s0 srest⟩
  · rintro ⟨a, ha, b, hb, hab⟩
    have hlen : 1 < (jsSetDedup ((d0 :: drest).map (fun d => d.payload.toVersion))).length :=
      one_lt_length_jsSetDedup _ a.payload.toVersion b.payload.toVersion
        (List.mem_map_of_mem _ ha) (List.mem_map_of_mem _ hb) hab
    rw [List.map_cons] at hlen
    refine ⟨jsSetDedup ((d0 :: drest).map (fun d => d.payload.toVersion)), ?_, ?_, ?_⟩
    · simp [resolveConcurrentDiffs, hlen]
    · exact nodup_jsSetDedup _
    · intro t
      rw [mem_jsSetDedup]
      simp only [List.mem_map]
  · intro hall
    have hconst : ∀ t ∈ jsSetDedup ((d0 :: drest).map (fun d => d.payload.toVersion)),
        t = d0.payload.toVersion := by
      intro t ht
      rw [mem_jsSetDedup] at ht
      obtain ⟨d, hd, rfl⟩ := List.mem_map.mp ht
      exact hall d hd d0 (List.mem_cons_self d0 drest)
    have hlen : (jsSetDedup ((d0 :: drest).map (fun d => d.payload.toVersion))).length ≤ 1 :=
      length_le_one_of_nodup_const _ d0.payload.toVersion (nodup_jsSetDedup _) hconst
    have hnlt : ¬ 1 < (jsSetDedup ((d0 :: drest).map (fun d => d.payload.toVersion))).length := by
      omega
    rw [List.map_cons] at hnlt
    exact ⟨d0, by simp [resolveConcurrentDiffs, hnlt], List.mem_cons_self d0 drest⟩

/-- C8 witness: two snapshots with hashes h1 and h2 are rejected with both
hashes reported; two snapshots sharing h1 resolve with a member winner; two
diffs targeting 1.1.0 and 1.2.0 are rejected; two diffs targeting 1.1.0
resolve with a member winner. -/
theorem C8_reject_inconsistent_witness :
    (∃ hs, resolveParallelSnapshots none
        [{ sourceInstance := "A", timestamp := 1, payload := { version := "1", hash := "h1" } },
         { sourceInstance := "B", timestamp := 2, payload := { version := "1", hash := "h2" } }]
        "reject-inconsistent" =
        Except.ok
          { resolved := false, strategy := none, resolvedSnapshot := none,
            reason := some "hash_mismatch", hashes := some hs } ∧
      hs.Nodup ∧ ∀ h, h ∈ hs ↔ ∃ s ∈
        ([{ sourceInstance := "A", timestamp := 1,
            payload := { version := "1", hash := "h1" } },
          { sourceInstance := "B", timestamp := 2,
            payload := { version := "1", hash := "h2" } }] : List SnapshotCandidate),
        s.payload.hash = h) ∧
    (∃ w, resolveParallelSnapshots none
        [{ sourceInstance := "A", timestamp := 1, payload := { version := "1", hash := "h1" } },
         { sourceInstance := "B", timestamp := 2, payload := { version := "1", hash := "h1" } }]
        "reject-inconsistent" =
        Except.ok
          { resolved := true, strategy := some "reject-inconsistent",
            resolvedSnapshot := some w,
            reason := some "reject-inconsistent (hashes match)", hashes := none } ∧
      w ∈ [{ sourceInstance := "A", timestamp := 1,
             payload := { version := "1", hash := "h1" } },
           { sourceInstance := "B", timestamp := 2,
             payload := { version := "1", hash := "h1" } }]) ∧
    (∃ ts, resolveConcurrentDiffs none
        [{ sourceInstance := "A", timestamp := 1,
           payload := { fromVersion := "1.0.0", toVersion := "1.1.0" } },
         { sourceInstance := "B", timestamp := 2,
           payload := { fromVersion := "1.0.0", toVersion := "1.2.0" } }]
        "reject-inconsistent" =
        Except.ok
          { resolved := false, strategy := none, resolvedDiff := none,
            reason := some "inconsistent_target_versions", targets := some ts } ∧
      ts.Nodup ∧ ∀ t, t ∈ ts ↔ ∃ d ∈
        ([{ sourceInstance := "A", timestamp := 1,
            payload := { fromVersion := "1.0.0", toVersion := "1.1.0" } },
          { sourceInstance := "B", timestamp := 2,
            payload := { fromVersion := "1.0.0", toVersion := "1.2.0" } }] : List DiffCandidate),
        d.payload.toVersion = t) ∧
    (∃ w, resolveConcurrentDiffs none
        [{ sourceInstance := "A", timestamp := 1,
           payload := { fromVersion := "1.0.0", toVersion := "1.1.0" } },
         { sourceInstance := "B", timestamp := 2,
           payload := { fromVersion := "1.0.1", toVersion := "1.1.0" } }]
        "reject-inconsistent" =
        Except.ok
          { resolved := true, strategy := some "reject-inconsistent",
            resolvedDiff := some w,
            reason := some "reject-inconsistent (target versions match)", targets := none } ∧
      w ∈ [{ sourceInstance := "A", timestamp := 1,
             payload := { fromVersion := "1.0.0", toVersion := "1.1.0" } },
           { sourceInstance := "B", timestamp := 2,
             payload := { fromVersion := "1.0.1", toVersion := "1.1.0" } }]) :=
  ⟨(C8_reject_inconsistent none
      { sourceInstance := "A", timestamp := 1, payload := { version := "1", hash := "h1" } }
      [{ sourceInstance := "B", timestamp := 2, payload := { version := "1", hash := "h2" } }]
      { sourceInstance := "A", timestamp := 1,
        payload := { fromVersion := "1.0.0", toVersion := "1.1.0" } }
      [{ sourceInstance := "B", timestamp := 2,
         payload := { fromVersion := "1.0.0", toVersion := "1.2.0" } }]).1
      (by decide),
   (C8_reject_inconsistent none
      { sourceInstance := "A", timestamp := 1, payload := { version := "1", hash := "h1" } }
      [{ sourceInstance := "B", timestamp := 2, payload := { version := "1", hash := "h1" } }]
      { sourceInstance := "A", timestamp := 1,
        payload := { fromVersion := "1.0.0", toVersion := "1.1.0" } }
      [{ sourceInstance := "B", timestamp := 2,
         payload := { fromVersion := "1.0.0", toVersion := "1.2.0" } }]).2.1
      (by decide),
   (C8_reject_inconsistent none
      { sourceInstance := "A", timestamp := 1, payload := { version := "1", hash := "h1" } }
      [{ sourceInstance := "B", timestamp := 2, payload := { version := "1", hash := "h2" } }]
      { sourceInstance := "A", timestamp := 1,
        payload := { fromVersion := "1.0.0", toVersion := "1.1.0" } }
      [{ sourceInstance := "B", timestamp := 2,
         payload := { fromVersion := "1.0.0", toVersion := "1.2.0" } }]).2.2.1
      (by decide),
   (C8_reject_inconsistent none
      { sourceInstance := "A", timestamp := 1, payload := { version := "1", hash := "h1" } }
      [{ sourceInstance := "B", timestamp := 2, payload := { version := "1", hash := "h2" } }]
      { sourceInstance := "A", timestamp := 1,
        payload := { fromVersion := "1.0.0", toVersion := "1.1.0" } }
      [{ sourceInstance := "B", timestamp := 2,
         payload := { fromVersion := "1.0.1", toVersion := "1.1.0" } }]).2.2.2
      (by decide)⟩

end IWDC
